import Mathlib

/-!
Leaf controller: request handlers, construction, bus setup and shutdown

A shallow embedding of `pkg/leaf-controller/controller.go` and
`pkg/leaf-controller/requests.go`.

* Go `string` and `[]byte` are byte sequences; the conversions `string(b)` and
  `[]byte(s)` copy the bytes unchanged, so both are `GoString` here.
* The Kubernetes client and the NATS client are external collaborators. They
  are passed in as records of functions that decide the outcome of each call;
  every call the code makes on them is recorded in a trace of events.
* A Go run-time panic is an explicit outcome.
-/

namespace LeafController

/-! ## Go values -/

/-- Go strings and byte slices: a sequence of bytes. -/
abbrev GoString := List UInt8

/-- String literal of the source. Every literal of the package is ASCII, where the
code point of a character is its single UTF-8 byte. -/
def str (s : String) : GoString := s.toList.map (fun c => c.toNat.toUInt8)

/-- Go `error` value: `text` is what `err.Error()` returns. -/
structure GoError where
  text : GoString
deriving DecidableEq, Repr

/-- Go `map[string]string`. `none` is the nil map; `some kvs` is an allocated map,
kept as an association list with at most one entry per key. -/
abbrev GoMap := Option (List (GoString × GoString))

/-- Lookup in the entries of an allocated map. -/
def entriesGet (k : GoString) : List (GoString × GoString) → Option GoString
  | [] => none
  | (k', v') :: rest => if k' = k then some v' else entriesGet k rest

/-- Store `v` under `k` in the entries of an allocated map, replacing an entry
with the same key. -/
def entriesSet (k v : GoString) : List (GoString × GoString) → List (GoString × GoString)
  | [] => [(k, v)]
  | (k', v') :: rest => if k' = k then (k, v) :: rest else (k', v') :: entriesSet k v rest

/-- Go `m[k]` as an expression: the zero value `""` when the key is missing, also
on a nil map. -/
def mapIndex (m : GoMap) (k : GoString) : GoString :=
  match m with
  | none => []
  | some kvs => (entriesGet k kvs).getD []

/-- Go `m[k] = v` as a statement: `none` is the run-time panic
"assignment to entry in nil map". -/
def mapAssign (m : GoMap) (k v : GoString) : Option GoMap :=
  match m with
  | none => none
  | some kvs => some (some (entriesSet k v kvs))

/-- One `%s` verb of `fmt.Sprintf` applied to string arguments: the argument's
bytes are written unchanged; a verb without an argument prints
`%!s(MISSING)`. Every format of the package is of this kind. -/
def Sprintf : GoString → List GoString → GoString
  | [], _ => []
  | [b], _ => [b]
  | b :: b' :: rest, args =>
    if b = 37 ∧ b' = 115 then
      match args with
      | [] => str "%!s(MISSING)" ++ Sprintf rest []
      | a :: args' => a ++ Sprintf rest args'
    else b :: Sprintf (b' :: rest) args

/-! ## Data model (controller.go) -/

def DiscoverSubject : GoString := str "_SAT.discover"
def StatusSubject : GoString := str "_SAT.%s.status"
def ConfigGetSubject : GoString := str "_SAT.%s.config.get"
def ConfigUpdateSubject : GoString := str "_SAT.%s.config.put"
def DefaultQueueGroupName : GoString := str "controllers"

/-- Options of the controller. -/
structure Options where
  ClusterName : GoString := []
  NoSignals : Bool := false
  NatsServerURL : GoString := []
  NatsCredentials : GoString := []
  ConfigMapName : GoString := []
  PodNamespace : GoString := []
deriving DecidableEq, Repr

/-- The part of a Kubernetes `v1.ConfigMap` the controller touches. -/
structure ConfigMap where
  Name : GoString
  Namespace : GoString
  Data : GoMap
deriving DecidableEq, Repr

/-- The calls the handlers make on `kc.CoreV1().ConfigMaps(ns)`: `Get(ctx, name, opts)`
and `Update(ctx, cm, opts)`, each returning a record or an error. -/
structure KubeClient where
  Get : GoString → GoString → Except GoError ConfigMap
  Update : GoString → ConfigMap → Except GoError ConfigMap

/-- Handle of a NATS connection (`*nats.Conn`). -/
structure Conn where
  id : Nat
deriving DecidableEq, Repr

/-- The cancel function of the context derived in `Run`, which `c.quit` wraps. -/
structure CancelFunc where
  id : Nat
deriving DecidableEq, Repr

/-- The controller. Nil pointers and nil functions are `none`. -/
structure Controller where
  kc : Option KubeClient := none
  opts : Options
  nc : Option Conn := none
  quit : Option CancelFunc := none
  shutdown : Bool := false

/-- A NATS message delivered to a handler. -/
structure Msg where
  Subject : GoString
  Reply : GoString
  Data : GoString
deriving DecidableEq, Repr

inductive LogLevel where
  | debug
  | info
  | error
deriving DecidableEq, Repr

/-- What a handler does to the outside: log lines (format and arguments as
passed to logrus), calls on the store, and the call of `m.Respond`. -/
inductive Event where
  | log (level : LogLevel) (format : GoString) (args : List GoString)
  | get (ns name : GoString)
  | update (ns : GoString) (cm : ConfigMap)
  | respond (data : GoString)
deriving DecidableEq, Repr

/-- How a call ends. -/
inductive Outcome where
  | returned
  | panicked
deriving DecidableEq, Repr

/-- Result of running a handler: the events in order, and how it ended. -/
structure HandlerRun where
  trace : List Event
  outcome : Outcome
deriving DecidableEq, Repr

/-- The payloads passed to `m.Respond`, in order. -/
def replies : List Event → List GoString
  | [] => []
  | Event.respond d :: rest => d :: replies rest
  | _ :: rest => replies rest

/-- The records passed to the store's `Update`, in order. -/
def writes : List Event → List (GoString × ConfigMap)
  | [] => []
  | Event.update ns cm :: rest => (ns, cm) :: writes rest
  | _ :: rest => writes rest

/-- The `(namespace, name)` pairs passed to the store's `Get`, in order. -/
def fetches : List Event → List (GoString × GoString)
  | [] => []
  | Event.get ns name :: rest => (ns, name) :: fetches rest
  | _ :: rest => fetches rest

/-! ## Request handlers (requests.go) -/

/-- Handler `processConfigGetRequest` of requests.go, lines 23 to 40. -/
def processConfigGetRequest (c : Controller) (m : Msg) : HandlerRun :=
  let t0 := [Event.log .info (str "Processing get request: %+v") [m.Data]]
  let ns := c.opts.PodNamespace
  let cmName := c.opts.ConfigMapName
  match c.kc with
  | none => ⟨t0, .panicked⟩
  | some kc =>
    match kc.Get ns cmName with
    | .error err =>
      ⟨t0 ++ [.get ns cmName,
              .log .error (str "Kubernetes API request failed on get: %s") [err.text],
              .respond (str "Error:" ++ err.text)], .returned⟩
    | .ok cm =>
      ⟨t0 ++ [.get ns cmName, .respond (mapIndex cm.Data (str "routes.json"))], .returned⟩

/-- Handler `processConfigUpdateRequest` of requests.go, lines 42 to 69. -/
def processConfigUpdateRequest (c : Controller) (m : Msg) : HandlerRun :=
  let t0 := [Event.log .info (str "Processing update request: %+v") [m.Data]]
  let ns := c.opts.PodNamespace
  let cmName := c.opts.ConfigMapName
  match c.kc with
  | none => ⟨t0, .panicked⟩
  | some kc =>
    match kc.Get ns cmName with
    | .error err =>
      ⟨t0 ++ [.get ns cmName,
              .log .error (str "Kubernetes API request failed on get: %s") [err.text],
              .respond (str "Error:" ++ err.text)], .returned⟩
    | .ok cm =>
      match mapAssign cm.Data (str "routes.json") m.Data with
      | none => ⟨t0 ++ [.get ns cmName], .panicked⟩
      | some data =>
        let cm1 : ConfigMap := { cm with Data := data }
        match kc.Update ns cm1 with
        | .error err =>
          ⟨t0 ++ [.get ns cmName, .update ns cm1,
                  .log .error (str "Kubernetes API request failed on update: %s") [err.text],
                  .respond (str "Error:" ++ err.text)], .returned⟩
        | .ok _ =>
          ⟨t0 ++ [.get ns cmName, .update ns cm1,
                  .respond (str "Successfully update ConfigMap")], .returned⟩

/-- Handler `processDiscoverRequest` of requests.go, lines 71 to 75. -/
def processDiscoverRequest (_c : Controller) (m : Msg) : HandlerRun :=
  ⟨[.log .info (str "Processing discover request: %+v") [m.Data],
    .respond (str "OK")], .returned⟩

/-- Handler `processStatusRequest` of requests.go, lines 77 to 81. -/
def processStatusRequest (_c : Controller) (m : Msg) : HandlerRun :=
  ⟨[.log .info (str "Processing status request: %+v") [m.Data],
    .respond (str "OK")], .returned⟩

/-! ## Construction (controller.go, `NewController`) -/

/-- The process environment: `none` for a variable that is not set. -/
abbrev Env := GoString → Option GoString

/-- Go `os.Getenv`: the value of the variable, `""` when it is not set. -/
def Getenv (env : Env) (key : GoString) : GoString := (env key).getD []

/-- Constructor `NewController` of controller.go, lines 86 to 102. A nil `opts` is
`none`. -/
def NewController (env : Env) (opts : Option Options) : Controller :=
  let opts0 : Options :=
    match opts with
    | none => {}
    | some o => o
  let opts1 : Options :=
    if opts0.ConfigMapName = [] then
      { opts0 with ConfigMapName := Sprintf (str "%s-config") [opts0.ClusterName] }
    else opts0
  let ns := Getenv env (str "POD_NAMESPACE")
  let opts2 : Options :=
    if ns ≠ [] then { opts1 with PodNamespace := ns }
    else { opts1 with PodNamespace := str "default" }
  { opts := opts2 }

/-! ## Bus setup (controller.go, `setupNATS`) -/

/-- The four callbacks the controller registers. -/
inductive Handler where
  | processConfigGetRequest
  | processConfigUpdateRequest
  | processStatusRequest
  | processDiscoverRequest
deriving DecidableEq, Repr

/-- Connection options of the NATS client; `Name n` is `nats.Name(n)`. -/
inductive NatsOption where
  | Name (name : GoString)
deriving DecidableEq, Repr

/-- The NATS client calls `setupNATS` makes; `none` from a subscribe call is a
nil error. -/
structure NatsClient where
  Connect : GoString → List NatsOption → Except GoError Conn
  QueueSubscribe : Conn → GoString → GoString → Handler → Option GoError
  Subscribe : Conn → GoString → Handler → Option GoError

/-- A call on the NATS client, with its arguments. -/
inductive NatsCall where
  | connect (url : GoString) (options : List NatsOption)
  | queueSubscribe (nc : Conn) (subj queue : GoString) (cb : Handler)
  | subscribe (nc : Conn) (subj : GoString) (cb : Handler)
deriving DecidableEq, Repr

/-- Result of `setupNATS`: the returned error (`none` is nil), the controller
afterwards, and the calls made on the NATS client, in order. -/
structure SetupRun where
  err : Option GoError
  c : Controller
  calls : List NatsCall

/-- Method `setupNATS` of controller.go, lines 135 to 170. The slice `nopts` is built
but `nats.Connect` is called with the URL alone. -/
def setupNATS (nats : NatsClient) (c : Controller) : SetupRun :=
  let nopts : List NatsOption := []
  let _nopts : List NatsOption :=
    nopts ++ [NatsOption.Name (Sprintf (str "leaf-controller:%s") [c.opts.ClusterName])]
  let k0 := [NatsCall.connect c.opts.NatsServerURL []]
  match nats.Connect c.opts.NatsServerURL [] with
  | .error err => ⟨some err, c, k0⟩
  | .ok nc =>
    let s1 := Sprintf ConfigGetSubject [c.opts.ClusterName]
    let k1 := k0 ++ [NatsCall.queueSubscribe nc s1 DefaultQueueGroupName
      .processConfigGetRequest]
    match nats.QueueSubscribe nc s1 DefaultQueueGroupName .processConfigGetRequest with
    | some err => ⟨some err, c, k1⟩
    | none =>
      let s2 := Sprintf ConfigUpdateSubject [c.opts.ClusterName]
      let k2 := k1 ++ [NatsCall.queueSubscribe nc s2 DefaultQueueGroupName
        .processConfigUpdateRequest]
      match nats.QueueSubscribe nc s2 DefaultQueueGroupName .processConfigUpdateRequest with
      | some err => ⟨some err, c, k2⟩
      | none =>
        let s3 := Sprintf StatusSubject [c.opts.ClusterName]
        let k3 := k2 ++ [NatsCall.queueSubscribe nc s3 DefaultQueueGroupName
          .processStatusRequest]
        match nats.QueueSubscribe nc s3 DefaultQueueGroupName .processStatusRequest with
        | some err => ⟨some err, c, k3⟩
        | none =>
          let k4 := k3 ++ [NatsCall.subscribe nc DiscoverSubject .processDiscoverRequest]
          match nats.Subscribe nc DiscoverSubject .processDiscoverRequest with
          | some err => ⟨some err, c, k4⟩
          | none => ⟨none, { c with nc := some nc }, k4⟩

/-- The subscriptions among the calls: subject, queue group (`none` for a plain
`Subscribe`), callback and connection. -/
def subscriptions : List NatsCall → List (GoString × Option GoString × Handler × Conn)
  | [] => []
  | NatsCall.queueSubscribe nc subj queue cb :: rest =>
    (subj, some queue, cb, nc) :: subscriptions rest
  | NatsCall.subscribe nc subj cb :: rest => (subj, none, cb, nc) :: subscriptions rest
  | NatsCall.connect _ _ :: rest => subscriptions rest

/-- The option lists of the connect calls among the calls. -/
def connectOptions : List NatsCall → List (List NatsOption)
  | [] => []
  | NatsCall.connect _ options :: rest => options :: connectOptions rest
  | _ :: rest => connectOptions rest

/-! ## Shutdown (controller.go, `Shutdown`) -/

/-- What `Shutdown` does to the outside: the call of `nc.Drain()`, the two log
lines, and the call of the cancel function behind `c.quit`. -/
inductive Effect where
  | drain (nc : Conn)
  | errorf (format : GoString) (err : Option GoError)
  | cancel (f : CancelFunc)
  | infof (format : GoString)
deriving DecidableEq, Repr

/-- Result of one call of `Shutdown`. -/
structure ShutdownRun where
  c : Controller
  trace : List Effect
  outcome : Outcome

/-- Method `Shutdown` of controller.go, lines 225 to 241, run without interruption.
`Drain nc` is the result of `nc.Drain()` (`none` is a nil error). Calling `Drain`
on a nil connection and calling a nil `quit` are panics. -/
def Shutdown (Drain : Conn → Option GoError) (c : Controller) : ShutdownRun :=
  if c.shutdown then ⟨c, [], .returned⟩
  else
    let c1 : Controller := { c with shutdown := true }
    match c.nc with
    | none => ⟨c1, [], .panicked⟩
    | some nc =>
      let err := Drain nc
      let t := [Effect.drain nc, Effect.errorf (str "Error disconnecting from NATS: %s") err]
      match c1.quit with
      | none => ⟨c1, t, .panicked⟩
      | some q => ⟨c1, t ++ [Effect.cancel q, Effect.infof (str "Bye...")], .returned⟩

/-- Calls of `Shutdown` one after another: the controller after `n` calls, the
effects of all of them in order, and the number of calls that returned. -/
def ShutdownTimes (Drain : Conn → Option GoError) (c : Controller) :
    Nat → Controller × List Effect × Nat
  | 0 => (c, [], 0)
  | n + 1 =>
    let r := Shutdown Drain c
    let rest := ShutdownTimes Drain r.c n
    (rest.1, r.trace ++ rest.2.1, (if r.outcome = .returned then 1 else 0) + rest.2.2)

/-- Where one call of `Shutdown` stands. `entry`: not yet at `c.mu.Lock()`.
`drain nc`: past `c.mu.Unlock()` on line 233 with the local `nc`, before
`nc.Drain()`. `quit`: past the log line 236, before `c.quit()`. -/
inductive PC where
  | entry
  | drain (nc : Option Conn)
  | quit
  | returned
  | panicked
deriving DecidableEq, Repr

/-- Calls of `Shutdown` running concurrently on one controller: the shared
controller, where each call stands, and the effects so far, each with the number
of the call that made it. -/
structure Sys where
  c : Controller
  pcs : Nat → PC
  trace : List (Nat × Effect)

/-- Start: every call is at its entry, nothing has happened. -/
def Sys.start (c : Controller) : Sys := ⟨c, fun _ => .entry, []⟩

/-- Replace where call `i` stands. -/
def setPC (pcs : Nat → PC) (i : Nat) (pc : PC) : Nat → PC :=
  fun j => if j = i then pc else pcs j

/-- One atomic step of call `i`. The mutex makes lines 226 to 233 (test and set of
the flag, copy of `c.nc`) one step; `nc.Drain()` with its log line is the second,
`c.quit()` with its log line the third. A call that has ended does nothing. -/
def Sys.step (Drain : Conn → Option GoError) (s : Sys) (i : Nat) : Sys :=
  match s.pcs i with
  | .entry =>
    if s.c.shutdown then { s with pcs := setPC s.pcs i .returned }
    else { s with c := { s.c with shutdown := true }, pcs := setPC s.pcs i (.drain s.c.nc) }
  | .drain none => { s with pcs := setPC s.pcs i .panicked }
  | .drain (some nc) =>
    { s with
      trace := s.trace ++ [(i, Effect.drain nc),
        (i, Effect.errorf (str "Error disconnecting from NATS: %s") (Drain nc))],
      pcs := setPC s.pcs i .quit }
  | .quit =>
    match s.c.quit with
    | none => { s with pcs := setPC s.pcs i .panicked }
    | some q =>
      { s with
        trace := s.trace ++ [(i, Effect.cancel q), (i, Effect.infof (str "Bye..."))],
        pcs := setPC s.pcs i .returned }
  | .returned => s
  | .panicked => s

/-- Run `N` concurrent calls along a schedule: each entry of the schedule lets
that call take its next step; numbers that are not a call are skipped. -/
def Sys.run (Drain : Conn → Option GoError) (N : Nat) (s : Sys) : List Nat → Sys
  | [] => s
  | i :: rest => Sys.run Drain N (if i < N then s.step Drain i else s) rest

/-- The first call of the schedule. -/
def firstCaller (N : Nat) : List Nat → Option Nat
  | [] => none
  | i :: rest => if i < N then some i else firstCaller N rest

/-- The effects of a complete shutdown made by call `w`. -/
def fullShutdown (Drain : Conn → Option GoError) (w : Nat) (nc : Conn) (q : CancelFunc) :
    List (Nat × Effect) :=
  [(w, Effect.drain nc),
   (w, Effect.errorf (str "Error disconnecting from NATS: %s") (Drain nc)),
   (w, Effect.cancel q),
   (w, Effect.infof (str "Bye..."))]

/-- Number of `nc.Drain()` calls among the effects. -/
def drainCount : List Effect → Nat
  | [] => 0
  | Effect.drain _ :: rest => drainCount rest + 1
  | _ :: rest => drainCount rest

/-- Number of calls of the cancel function among the effects. -/
def cancelCount : List Effect → Nat
  | [] => 0
  | Effect.cancel _ :: rest => cancelCount rest + 1
  | _ :: rest => cancelCount rest

/-- Progress of a call: the number of steps behind it on the longest path. -/
def PC.rank : PC → Nat
  | .entry => 0
  | .drain _ => 1
  | .quit => 2
  | .returned => 3
  | .panicked => 0

/-- `N` concurrent calls of `Shutdown` on controller `c`, run along a schedule. -/
def concurrentShutdowns (Drain : Conn → Option GoError) (N : Nat) (c : Controller)
    (sched : List Nat) : Sys :=
  Sys.run Drain N (Sys.start c) sched

/-- Invariant of the concurrent runs, for a controller set up with connection
`conn` and cancel function `q`. While no call has stepped (`none`) the flag is
down, nothing has happened and every call is at its entry. Once call `w` has
taken the first step (`some w`) the flag is up, every other call is at its entry
or has returned, and the effects so far are those of `w` alone, as far as `w` has
come. -/
def ShutdownInv (Drain : Conn → Option GoError) (N : Nat) (conn : Conn) (q : CancelFunc)
    (first : Option Nat) (s : Sys) : Prop :=
  s.c.nc = some conn ∧ s.c.quit = some q ∧
  match first with
  | none => s.c.shutdown = false ∧ s.trace = [] ∧ ∀ i, s.pcs i = .entry
  | some w =>
    w < N ∧ s.c.shutdown = true ∧
    (∀ i, i ≠ w → s.pcs i = .entry ∨ s.pcs i = .returned) ∧
    ((s.pcs w = .drain (some conn) ∧ s.trace = []) ∨
     (s.pcs w = .quit ∧ s.trace = (fullShutdown Drain w conn q).take 2) ∨
     (s.pcs w = .returned ∧ s.trace = fullShutdown Drain w conn q))

/-! ## Concrete inputs -/

/-- Options as `NewController` leaves them for cluster `c1`. -/
def exOptions : Options :=
  { ClusterName := str "c1", NatsServerURL := str "nats://ground:4222",
    ConfigMapName := str "c1-config", PodNamespace := str "default" }

/-- A store whose `Get` returns a record with the given `Data` and whose `Update`
succeeds. -/
def storeWith (data : GoMap) : KubeClient :=
  ⟨fun ns name => .ok ⟨name, ns, data⟩, fun _ cm => .ok cm⟩

/-- A store whose `Get` fails with the given text. -/
def storeGetFails (text : GoString) : KubeClient :=
  ⟨fun _ _ => .error ⟨text⟩, fun _ cm => .ok cm⟩

/-- A store whose `Get` returns a record with the given `Data` and whose `Update`
fails with the given text. -/
def storeUpdateFails (data : GoMap) (text : GoString) : KubeClient :=
  ⟨fun ns name => .ok ⟨name, ns, data⟩, fun _ _ => .error ⟨text⟩⟩

/-- A running controller for cluster `c1` on the given store. -/
def exController (kc : KubeClient) : Controller :=
  { kc := some kc, opts := exOptions, nc := some ⟨1⟩, quit := some ⟨1⟩ }

/-- A request with the given payload. -/
def exMsg (data : GoString) : Msg := ⟨str "_SAT.c1.config.put", str "_INBOX.1", data⟩

/-- A NATS client on which every call succeeds. -/
def natsUp : NatsClient := ⟨fun _ _ => .ok ⟨1⟩, fun _ _ _ _ => none, fun _ _ _ => none⟩

/-- A drain that fails. -/
def drainFails : Conn → Option GoError := fun _ => some ⟨str "nats: connection closed"⟩

/-! # Theorems -/

/-! ## Go values: helper lemmas -/

theorem entriesGet_entriesSet (k v : GoString) (kvs : List (GoString × GoString)) :
    entriesGet k (entriesSet k v kvs) = some v := by
  induction kvs with
  | nil => simp [entriesSet, entriesGet]
  | cons p rest ih =>
    obtain ⟨k', v'⟩ := p
    by_cases h : k' = k
    · simp [entriesSet, entriesGet, h]
    · simp [entriesSet, entriesGet, h, ih]

theorem entriesGet_entriesSet_other (k v j : GoString) (hj : j ≠ k)
    (kvs : List (GoString × GoString)) :
    entriesGet j (entriesSet k v kvs) = entriesGet j kvs := by
  induction kvs with
  | nil => simp [entriesSet, entriesGet, Ne.symm hj]
  | cons p rest ih =>
    obtain ⟨k', v'⟩ := p
    by_cases h : k' = k
    · subst h
      simp [entriesSet, entriesGet, Ne.symm hj]
    · by_cases h2 : k' = j
      · subst h2
        simp [entriesSet, entriesGet, hj]
      · simp [entriesSet, entriesGet, h, h2, ih]

theorem Sprintf_configGet (s : GoString) :
    Sprintf ConfigGetSubject [s] = str "_SAT." ++ s ++ str ".config.get" := by
  rfl

theorem Sprintf_configUpdate (s : GoString) :
    Sprintf ConfigUpdateSubject [s] = str "_SAT." ++ s ++ str ".config.put" := by
  rfl

theorem Sprintf_status (s : GoString) :
    Sprintf StatusSubject [s] = str "_SAT." ++ s ++ str ".status" := by
  rfl

theorem Sprintf_config (s : GoString) :
    Sprintf (str "%s-config") [s] = s ++ str "-config" := by
  rfl

theorem Sprintf_name (s : GoString) :
    Sprintf (str "leaf-controller:%s") [s] = str "leaf-controller:" ++ s := by
  have h : Sprintf (str "leaf-controller:%s") [s] = str "leaf-controller:" ++ (s ++ []) := rfl
  rw [h, List.append_nil]

/-! ## Request handlers -/

/-- With an allocated field map in the fetched record and a successful write,
`processConfigUpdateRequest` writes the record with `routes.json` set to the
payload, leaves the other fields alone, and acknowledges. -/
theorem configUpdate_allocated_success (c : Controller) (kc : KubeClient) (m : Msg)
    (cm cm2 : ConfigMap) (kvs : List (GoString × GoString))
    (hkc : c.kc = some kc)
    (hget : kc.Get c.opts.PodNamespace c.opts.ConfigMapName = .ok cm)
    (hdata : cm.Data = some kvs)
    (hupd : kc.Update c.opts.PodNamespace
      { cm with Data := some (entriesSet (str "routes.json") m.Data kvs) } = .ok cm2) :
    replies (processConfigUpdateRequest c m).trace = [str "Successfully update ConfigMap"] ∧
    writes (processConfigUpdateRequest c m).trace =
      [(c.opts.PodNamespace,
        { cm with Data := some (entriesSet (str "routes.json") m.Data kvs) })] ∧
    mapIndex (some (entriesSet (str "routes.json") m.Data kvs)) (str "routes.json") = m.Data ∧
    (processConfigUpdateRequest c m).outcome = .returned := by
  simp [processConfigUpdateRequest, hkc, hget, hdata, mapAssign, hupd, replies, writes,
    mapIndex, entriesGet_entriesSet]

/-- C1, at the failing input: the store returns a record whose field map is absent
(nil) and the write would succeed. The handler panics on the assignment of line
60: it sends no reply and never calls the write. -/
theorem configUpdate_nil_data_panics :
    (processConfigUpdateRequest (exController (storeWith none)) (exMsg (str "ROUTES_V2"))).outcome
      = .panicked ∧
    replies (processConfigUpdateRequest (exController (storeWith none))
      (exMsg (str "ROUTES_V2"))).trace = [] ∧
    writes (processConfigUpdateRequest (exController (storeWith none))
      (exMsg (str "ROUTES_V2"))).trace = [] := by
  decide

/-- C2: when the fetch of `processConfigUpdateRequest` fails with error `e`, the
handler makes no call of the store's `Update`, sends exactly one reply, which is
`"Error:"` followed by the text of `e`, and returns. -/
theorem configUpdate_fetch_failure (c : Controller) (kc : KubeClient) (m : Msg) (e : GoError)
    (hkc : c.kc = some kc)
    (hget : kc.Get c.opts.PodNamespace c.opts.ConfigMapName = .error e) :
    writes (processConfigUpdateRequest c m).trace = [] ∧
    replies (processConfigUpdateRequest c m).trace = [str "Error:" ++ e.text] ∧
    (processConfigUpdateRequest c m).outcome = .returned := by
  simp [processConfigUpdateRequest, hkc, hget, replies, writes]

/-- A fetch failing with text `boom`: no write, and the one reply is `Error:boom`. -/
theorem configUpdate_fetch_failure_witness :
    (exController (storeGetFails (str "boom"))).kc = some (storeGetFails (str "boom")) ∧
    (storeGetFails (str "boom")).Get exOptions.PodNamespace exOptions.ConfigMapName
      = .error ⟨str "boom"⟩ ∧
    writes (processConfigUpdateRequest (exController (storeGetFails (str "boom")))
      (exMsg (str "ROUTES_V2"))).trace = [] ∧
    replies (processConfigUpdateRequest (exController (storeGetFails (str "boom")))
      (exMsg (str "ROUTES_V2"))).trace = [str "Error:boom"] :=
  ⟨rfl, rfl,
   (configUpdate_fetch_failure (exController (storeGetFails (str "boom")))
      (storeGetFails (str "boom")) (exMsg (str "ROUTES_V2")) ⟨str "boom"⟩ rfl rfl).1,
   (configUpdate_fetch_failure (exController (storeGetFails (str "boom")))
      (storeGetFails (str "boom")) (exMsg (str "ROUTES_V2")) ⟨str "boom"⟩ rfl rfl).2.1⟩

/-- C3: when the fetch of `processConfigGetRequest` succeeds with record `cm`, the
fetch was made for the namespace and record name of the controller's options,
the one reply is the `routes.json` field of `cm` (the stored value when the field
is there, the empty string when the map is nil or has no such field), and no
store write is made. -/
theorem configGet_success (c : Controller) (kc : KubeClient) (m : Msg) (cm : ConfigMap)
    (hkc : c.kc = some kc)
    (hget : kc.Get c.opts.PodNamespace c.opts.ConfigMapName = .ok cm) :
    fetches (processConfigGetRequest c m).trace
      = [(c.opts.PodNamespace, c.opts.ConfigMapName)] ∧
    (∀ kvs v, cm.Data = some kvs → entriesGet (str "routes.json") kvs = some v →
      replies (processConfigGetRequest c m).trace = [v]) ∧
    ((cm.Data = none ∨ ∃ kvs, cm.Data = some kvs ∧ entriesGet (str "routes.json") kvs = none) →
      replies (processConfigGetRequest c m).trace = [[]]) ∧
    writes (processConfigGetRequest c m).trace = [] ∧
    (processConfigGetRequest c m).outcome = .returned := by
  refine ⟨?_, ?_, ?_, ?_, ?_⟩
  · simp [processConfigGetRequest, hkc, hget, fetches]
  · intro kvs v hd hv
    simp [processConfigGetRequest, hkc, hget, replies, mapIndex, hd, hv]
  · rintro (hd | ⟨kvs, hd, hv⟩)
    · simp [processConfigGetRequest, hkc, hget, replies, mapIndex, hd]
    · simp [processConfigGetRequest, hkc, hget, replies, mapIndex, hd, hv]
  · simp [processConfigGetRequest, hkc, hget, writes]
  · simp [processConfigGetRequest, hkc, hget]

/-- A record with routing blob `ROUTES_V1` yields the reply `ROUTES_V1`. -/
theorem configGet_success_witness :
    (exController (storeWith (some [(str "routes.json", str "ROUTES_V1")]))).kc
      = some (storeWith (some [(str "routes.json", str "ROUTES_V1")])) ∧
    (storeWith (some [(str "routes.json", str "ROUTES_V1")])).Get exOptions.PodNamespace
      exOptions.ConfigMapName
      = .ok ⟨str "c1-config", str "default", some [(str "routes.json", str "ROUTES_V1")]⟩ ∧
    replies (processConfigGetRequest
      (exController (storeWith (some [(str "routes.json", str "ROUTES_V1")])))
      (exMsg [])).trace = [str "ROUTES_V1"] :=
  ⟨rfl, rfl,
   (configGet_success (exController (storeWith (some [(str "routes.json", str "ROUTES_V1")])))
      (storeWith (some [(str "routes.json", str "ROUTES_V1")])) (exMsg [])
      ⟨str "c1-config", str "default", some [(str "routes.json", str "ROUTES_V1")]⟩
      rfl rfl).2.1 [(str "routes.json", str "ROUTES_V1")] (str "ROUTES_V1") rfl (by decide)⟩

/-- C4: at each of the three store failure points the one reply is `"Error:"`
followed by the text of the store's error and nothing else, and the handler
returns: (1) the fetch of `processConfigGetRequest` fails with `e`; (2) the fetch
of `processConfigUpdateRequest` fails with `e`; (3) `processConfigUpdateRequest`
called the store's `Update` with a record and that call fails with `e`. -/
theorem error_reply_framing (c : Controller) (kc : KubeClient) (m : Msg) (e : GoError)
    (hkc : c.kc = some kc) :
    (kc.Get c.opts.PodNamespace c.opts.ConfigMapName = .error e →
      replies (processConfigGetRequest c m).trace = [str "Error:" ++ e.text] ∧
      (processConfigGetRequest c m).outcome = .returned) ∧
    (kc.Get c.opts.PodNamespace c.opts.ConfigMapName = .error e →
      replies (processConfigUpdateRequest c m).trace = [str "Error:" ++ e.text] ∧
      (processConfigUpdateRequest c m).outcome = .returned) ∧
    (∀ ns cm1, (ns, cm1) ∈ writes (processConfigUpdateRequest c m).trace →
      kc.Update ns cm1 = .error e →
      replies (processConfigUpdateRequest c m).trace = [str "Error:" ++ e.text] ∧
      (processConfigUpdateRequest c m).outcome = .returned) := by
  refine ⟨?_, ?_, ?_⟩
  · intro hget
    simp [processConfigGetRequest, hkc, hget, replies]
  · intro hget
    simp [processConfigUpdateRequest, hkc, hget, replies]
  · intro ns cm1 hmem hupd
    cases hget : kc.Get c.opts.PodNamespace c.opts.ConfigMapName with
    | error e1 =>
      simp [processConfigUpdateRequest, hkc, hget, writes] at hmem
    | ok cm =>
      cases hdata : cm.Data with
      | none =>
        simp [processConfigUpdateRequest, hkc, hget, hdata, mapAssign, writes] at hmem
      | some kvs =>
        cases hu : kc.Update c.opts.PodNamespace
            { cm with Data := some (entriesSet (str "routes.json") m.Data kvs) } with
        | error e2 =>
          simp [processConfigUpdateRequest, hkc, hget, hdata, mapAssign, writes, hu] at hmem
          obtain ⟨h1, h2⟩ := hmem
          subst h1 h2
          rw [hu] at hupd
          cases hupd
          simp [processConfigUpdateRequest, hkc, hget, hdata, mapAssign, replies, hu]
        | ok cm2 =>
          simp [processConfigUpdateRequest, hkc, hget, hdata, mapAssign, writes, hu] at hmem
          obtain ⟨h1, h2⟩ := hmem
          subst h1 h2
          rw [hu] at hupd
          cases hupd

/-- A fetch failure with text `not found` yields the reply `Error:not found` from both
handlers; a write failure with text `forbidden` yields `Error:forbidden`. -/
theorem error_reply_framing_witness :
    replies (processConfigGetRequest (exController (storeGetFails (str "not found")))
      (exMsg [])).trace = [str "Error:not found"] ∧
    replies (processConfigUpdateRequest (exController (storeGetFails (str "not found")))
      (exMsg (str "ROUTES_V2"))).trace = [str "Error:not found"] ∧
    replies (processConfigUpdateRequest
      (exController (storeUpdateFails (some []) (str "forbidden")))
      (exMsg (str "ROUTES_V2"))).trace = [str "Error:forbidden"] :=
  ⟨((error_reply_framing (exController (storeGetFails (str "not found")))
      (storeGetFails (str "not found")) (exMsg []) ⟨str "not found"⟩ rfl).1 rfl).1,
   ((error_reply_framing (exController (storeGetFails (str "not found")))
      (storeGetFails (str "not found")) (exMsg (str "ROUTES_V2")) ⟨str "not found"⟩
      rfl).2.1 rfl).1,
   ((error_reply_framing (exController (storeUpdateFails (some []) (str "forbidden")))
      (storeUpdateFails (some []) (str "forbidden")) (exMsg (str "ROUTES_V2"))
      ⟨str "forbidden"⟩ rfl).2.2 (str "default")
      ⟨str "c1-config", str "default", some [(str "routes.json", str "ROUTES_V2")]⟩
      (by decide) rfl).1⟩

/-- C9: for every payload and every controller state, `processDiscoverRequest` and
`processStatusRequest` each send exactly one reply, the literal `"OK"`, make no
store fetch and no store write, and return. -/
theorem discover_status_reply_ok (c : Controller) (m : Msg) :
    replies (processDiscoverRequest c m).trace = [str "OK"] ∧
    fetches (processDiscoverRequest c m).trace = [] ∧
    writes (processDiscoverRequest c m).trace = [] ∧
    (processDiscoverRequest c m).outcome = .returned ∧
    replies (processStatusRequest c m).trace = [str "OK"] ∧
    fetches (processStatusRequest c m).trace = [] ∧
    writes (processStatusRequest c m).trace = [] ∧
    (processStatusRequest c m).outcome = .returned := by
  simp [processDiscoverRequest, processStatusRequest, replies, fetches, writes]

/-! ## Construction -/

/-- C7: after `NewController` the record name is the cluster name followed by
`"-config"` when the supplied record name is empty, and the supplied record name
when it is not; a nil `Options` counts as the all-empty one. The record name is
never empty afterwards. -/
theorem NewController_recordName (env : Env) (opts : Option Options) :
    (NewController env opts).opts.ConfigMapName =
      (if (opts.getD {}).ConfigMapName = [] then (opts.getD {}).ClusterName ++ str "-config"
       else (opts.getD {}).ConfigMapName) ∧
    (NewController env opts).opts.ConfigMapName ≠ [] := by
  have h1 : (NewController env opts).opts.ConfigMapName =
      (if (opts.getD {}).ConfigMapName = [] then (opts.getD {}).ClusterName ++ str "-config"
       else (opts.getD {}).ConfigMapName) := by
    cases opts with
    | none =>
      simp only [NewController, Option.getD]
      split <;> split <;> simp_all [Sprintf_config]
    | some o =>
      simp only [NewController, Option.getD]
      split <;> split <;> simp_all [Sprintf_config]
  refine ⟨h1, ?_⟩
  rw [h1]
  split
  · intro h
    have h2 := congrArg List.length h
    simp [str] at h2
  · assumption

/-- C8: after `NewController` the namespace is the value of `POD_NAMESPACE` when
that variable is set to a non-empty value, and `"default"` when it is unset or
empty, whatever namespace the caller supplied. It is never empty. -/
theorem NewController_namespace (env : Env) (opts : Option Options) :
    (NewController env opts).opts.PodNamespace =
      (match env (str "POD_NAMESPACE") with
       | some v => if v = [] then str "default" else v
       | none => str "default") ∧
    (NewController env opts).opts.PodNamespace ≠ [] := by
  have h1 : (NewController env opts).opts.PodNamespace =
      (match env (str "POD_NAMESPACE") with
       | some v => if v = [] then str "default" else v
       | none => str "default") := by
    cases henv : env (str "POD_NAMESPACE") with
    | none =>
      simp only [NewController, Getenv, henv, Option.getD]
      simp
    | some v =>
      simp only [NewController, Getenv, henv, Option.getD]
      by_cases hv : v = []
      · simp [hv]
      · simp [hv]
  refine ⟨h1, ?_⟩
  rw [h1]
  have hd : str "default" ≠ [] := by decide
  cases env (str "POD_NAMESPACE") with
  | none => exact hd
  | some v =>
    by_cases hv : v = []
    · simp only [hv, if_true]
      exact hd
    · simp only [hv, if_false]
      exact hv

/-! ## Bus setup -/

/-- C6: a `setupNATS` that returns nil made one connect call, which succeeded with a
connection `nc`, stored that connection, and registered on it exactly four
subscriptions, each of which succeeded (returned a nil error), in this order:
`"_SAT." ++ s ++ ".config.get"` with `processConfigGetRequest`,
`"_SAT." ++ s ++ ".config.put"` with `processConfigUpdateRequest` and
`"_SAT." ++ s ++ ".status"` with `processStatusRequest`, all three in queue group
`"controllers"`, and `"_SAT.discover"` with `processDiscoverRequest` without a queue
group; `s` is the cluster name. These five calls are all the calls made on the
bus client. -/
theorem setupNATS_subscriptions (nats : NatsClient) (c : Controller)
    (hok : (setupNATS nats c).err = none) :
    ∃ nc : Conn,
      nats.Connect c.opts.NatsServerURL [] = .ok nc ∧
      nats.QueueSubscribe nc (str "_SAT." ++ c.opts.ClusterName ++ str ".config.get")
        (str "controllers") Handler.processConfigGetRequest = none ∧
      nats.QueueSubscribe nc (str "_SAT." ++ c.opts.ClusterName ++ str ".config.put")
        (str "controllers") Handler.processConfigUpdateRequest = none ∧
      nats.QueueSubscribe nc (str "_SAT." ++ c.opts.ClusterName ++ str ".status")
        (str "controllers") Handler.processStatusRequest = none ∧
      nats.Subscribe nc (str "_SAT.discover") Handler.processDiscoverRequest = none ∧
      (setupNATS nats c).c.nc = some nc ∧
      (connectOptions (setupNATS nats c).calls).length = 1 ∧
      (setupNATS nats c).calls =
        [NatsCall.connect c.opts.NatsServerURL [],
         NatsCall.queueSubscribe nc (str "_SAT." ++ c.opts.ClusterName ++ str ".config.get")
           (str "controllers") Handler.processConfigGetRequest,
         NatsCall.queueSubscribe nc (str "_SAT." ++ c.opts.ClusterName ++ str ".config.put")
           (str "controllers") Handler.processConfigUpdateRequest,
         NatsCall.queueSubscribe nc (str "_SAT." ++ c.opts.ClusterName ++ str ".status")
           (str "controllers") Handler.processStatusRequest,
         NatsCall.subscribe nc (str "_SAT.discover") Handler.processDiscoverRequest] ∧
      subscriptions (setupNATS nats c).calls =
        [(str "_SAT." ++ c.opts.ClusterName ++ str ".config.get", some (str "controllers"),
            Handler.processConfigGetRequest, nc),
         (str "_SAT." ++ c.opts.ClusterName ++ str ".config.put", some (str "controllers"),
            Handler.processConfigUpdateRequest, nc),
         (str "_SAT." ++ c.opts.ClusterName ++ str ".status", some (str "controllers"),
            Handler.processStatusRequest, nc),
         (str "_SAT.discover", none, Handler.processDiscoverRequest, nc)] := by
  revert hok
  unfold setupNATS
  simp only [Sprintf_configGet, Sprintf_configUpdate, Sprintf_status]
  split
  · intro h
    simp at h
  · rename_i nc h0
    split
    · intro h
      simp at h
    · rename_i h1
      split
      · intro h
        simp at h
      · rename_i h2
        split
        · intro h
          simp at h
        · rename_i h3
          split
          · intro h
            simp at h
          · rename_i h4
            intro _
            refine ⟨nc, h0, h1, h2, h3, h4, rfl, rfl, ?_, ?_⟩
            · simp [DefaultQueueGroupName, DiscoverSubject]
            · simp [subscriptions, DefaultQueueGroupName, DiscoverSubject]

/-- For cluster `c1` on a bus where every call succeeds the connect call and the
four subscribe calls succeed, and the four subscriptions are the ones listed. -/
theorem setupNATS_subscriptions_witness :
    (setupNATS natsUp (exController (storeWith none))).err = none ∧
    natsUp.Connect exOptions.NatsServerURL [] = .ok ⟨1⟩ ∧
    natsUp.QueueSubscribe ⟨1⟩ (str "_SAT.c1.config.get") (str "controllers")
      Handler.processConfigGetRequest = none ∧
    natsUp.Subscribe ⟨1⟩ (str "_SAT.discover") Handler.processDiscoverRequest = none ∧
    subscriptions (setupNATS natsUp (exController (storeWith none))).calls =
      [(str "_SAT.c1.config.get", some (str "controllers"),
          Handler.processConfigGetRequest, ⟨1⟩),
       (str "_SAT.c1.config.put", some (str "controllers"),
          Handler.processConfigUpdateRequest, ⟨1⟩),
       (str "_SAT.c1.status", some (str "controllers"), Handler.processStatusRequest, ⟨1⟩),
       (str "_SAT.discover", none, Handler.processDiscoverRequest, ⟨1⟩)] :=
  ⟨rfl, rfl, rfl, rfl, by
    obtain ⟨nc, _, _, _, _, _, h1, _, _, h3⟩ :=
      setupNATS_subscriptions natsUp (exController (storeWith none)) rfl
    have hnc : nc = ⟨1⟩ := by
      have h : (setupNATS natsUp (exController (storeWith none))).c.nc = some ⟨1⟩ := rfl
      rw [h] at h1
      exact (Option.some.inj h1).symm
    rw [h3, hnc]
    decide⟩

/-- The connect call of `setupNATS` never carries an option: for every client and
every controller the one connect call is made with the URL of the options and an
empty option list. -/
theorem setupNATS_connect_without_options (nats : NatsClient) (c : Controller) :
    (setupNATS nats c).calls.head? = some (NatsCall.connect c.opts.NatsServerURL []) := by
  unfold setupNATS
  simp only
  cases nats.Connect c.opts.NatsServerURL [] with
  | error e => rfl
  | ok nc =>
    simp only
    split
    · rfl
    · split
      · rfl
      · split
        · rfl
        · split <;> rfl

/-- C10, at the failing input (cluster `c1`, every bus call succeeding): the
connect call of `setupNATS` carries the URL and an empty option list; the option
`nats.Name("leaf-controller:c1")` is in none of the calls. -/
theorem setupNATS_connect_drops_name :
    connectOptions (setupNATS natsUp (exController (storeWith none))).calls = [[]] ∧
    NatsOption.Name (str "leaf-controller:c1") ∉
      (connectOptions (setupNATS natsUp (exController (storeWith none))).calls).flatten := by
  decide

/-! ## Shutdown -/

theorem Shutdown_first (Drain : Conn → Option GoError) (c : Controller) (conn : Conn)
    (q : CancelFunc) (hnc : c.nc = some conn) (hq : c.quit = some q)
    (hs : c.shutdown = false) :
    (Shutdown Drain c).c = { c with shutdown := true } ∧
    (Shutdown Drain c).trace =
      [Effect.drain conn, Effect.errorf (str "Error disconnecting from NATS: %s") (Drain conn),
       Effect.cancel q, Effect.infof (str "Bye...")] ∧
    (Shutdown Drain c).outcome = .returned := by
  simp [Shutdown, hnc, hq, hs]

theorem Shutdown_later (Drain : Conn → Option GoError) (c : Controller)
    (hs : c.shutdown = true) :
    (Shutdown Drain c).c = c ∧ (Shutdown Drain c).trace = [] ∧
    (Shutdown Drain c).outcome = .returned := by
  simp [Shutdown, hs]

theorem ShutdownTimes_later (Drain : Conn → Option GoError) (n : Nat) (c : Controller)
    (hs : c.shutdown = true) :
    ShutdownTimes Drain c n = (c, [], n) := by
  induction n with
  | zero => rfl
  | succ n ih =>
    obtain ⟨h1, h2, h3⟩ := Shutdown_later Drain c hs
    simp only [ShutdownTimes, h1, h2, h3, ih]
    simp
    omega

theorem ShutdownTimes_first (Drain : Conn → Option GoError) (n : Nat) (c : Controller)
    (conn : Conn) (q : CancelFunc) (hnc : c.nc = some conn) (hq : c.quit = some q)
    (hs : c.shutdown = false) :
    ShutdownTimes Drain c (n + 1) =
      ({ c with shutdown := true },
       [Effect.drain conn, Effect.errorf (str "Error disconnecting from NATS: %s") (Drain conn),
        Effect.cancel q, Effect.infof (str "Bye...")], n + 1) := by
  obtain ⟨h1, h2, h3⟩ := Shutdown_first Drain c conn q hnc hq hs
  simp only [ShutdownTimes, h1, h2, h3, ShutdownTimes_later Drain n { c with shutdown := true } rfl]
  simp
  omega

theorem ShutdownInv_start (Drain : Conn → Option GoError) (N : Nat) (c : Controller)
    (conn : Conn) (q : CancelFunc) (hnc : c.nc = some conn) (hq : c.quit = some q)
    (hs : c.shutdown = false) :
    ShutdownInv Drain N conn q none (Sys.start c) :=
  ⟨hnc, hq, hs, rfl, fun _ => rfl⟩

theorem ShutdownInv_step (Drain : Conn → Option GoError) (N : Nat) (conn : Conn)
    (q : CancelFunc) (first : Option Nat) (s : Sys) (i : Nat) (hi : i < N)
    (h : ShutdownInv Drain N conn q first s) :
    ShutdownInv Drain N conn q (some (first.getD i)) (s.step Drain i) := by
  obtain ⟨hnc, hq, h⟩ := h
  cases first with
  | none =>
    obtain ⟨hs, ht, hp⟩ := h
    simp only [Option.getD]
    refine ⟨?_, ?_, hi, ?_, ?_, ?_⟩
    · simp [Sys.step, hp i, hs, hnc]
    · simp [Sys.step, hp i, hs, hq]
    · simp [Sys.step, hp i, hs]
    · intro j hj
      left
      simp [Sys.step, hp i, hs, setPC, hj, hp j]
    · left
      simp [Sys.step, hp i, hs, setPC, hnc, ht]
  | some w =>
    obtain ⟨hw, hs, ho, hph⟩ := h
    simp only [Option.getD]
    by_cases hiw : i = w
    · subst hiw
      rcases hph with ⟨hpc, ht⟩ | ⟨hpc, ht⟩ | ⟨hpc, ht⟩
      · refine ⟨?_, ?_, hi, ?_, ?_, ?_⟩
        · simp [Sys.step, hpc, hnc]
        · simp [Sys.step, hpc, hq]
        · simp [Sys.step, hpc, hs]
        · intro j hj
          have := ho j hj
          simpa [Sys.step, hpc, setPC, hj] using this
        · right
          left
          simp [Sys.step, hpc, setPC, ht, fullShutdown]
      · refine ⟨?_, ?_, hi, ?_, ?_, ?_⟩
        · simp [Sys.step, hpc, hq, hnc]
        · simp [Sys.step, hpc, hq]
        · simp [Sys.step, hpc, hq, hs]
        · intro j hj
          have := ho j hj
          simpa [Sys.step, hpc, hq, setPC, hj] using this
        · right
          right
          simp [Sys.step, hpc, hq, setPC, ht, fullShutdown]
      · have hst : s.step Drain i = s := by simp [Sys.step, hpc]
        rw [hst]
        exact ⟨hnc, hq, hi, hs, ho, Or.inr (Or.inr ⟨hpc, ht⟩)⟩
    · have hwi : w ≠ i := fun h => hiw h.symm
      rcases ho i hiw with hpc | hpc
      · refine ⟨?_, ?_, hw, ?_, ?_, ?_⟩
        · simp [Sys.step, hpc, hs, hnc]
        · simp [Sys.step, hpc, hs, hq]
        · simp [Sys.step, hpc, hs]
        · intro j hj
          by_cases hji : j = i
          · right
            simp [Sys.step, hpc, hs, setPC, hji]
          · have := ho j hj
            simpa [Sys.step, hpc, hs, setPC, hji] using this
        · simpa [Sys.step, hpc, hs, setPC, hwi] using hph
      · have hst : s.step Drain i = s := by simp [Sys.step, hpc]
        rw [hst]
        exact ⟨hnc, hq, hw, hs, ho, hph⟩

theorem ShutdownInv_run (Drain : Conn → Option GoError) (N : Nat) (conn : Conn)
    (q : CancelFunc) (sched : List Nat) :
    ∀ (first : Option Nat) (s : Sys), ShutdownInv Drain N conn q first s →
      ShutdownInv Drain N conn q
        (match first with
         | some w => some w
         | none => firstCaller N sched)
        (Sys.run Drain N s sched) := by
  induction sched with
  | nil =>
    intro first s h
    cases first <;> simpa [Sys.run, firstCaller] using h
  | cons i rest ih =>
    intro first s h
    by_cases hi : i < N
    · have h1 := ih _ _ (ShutdownInv_step Drain N conn q first s i hi h)
      cases first <;> simpa [Sys.run, firstCaller, hi] using h1
    · have h1 := ih _ _ h
      cases first <;> simpa [Sys.run, firstCaller, hi] using h1

theorem ShutdownInv_no_panic (Drain : Conn → Option GoError) (N : Nat) (conn : Conn)
    (q : CancelFunc) (first : Option Nat) (s : Sys)
    (h : ShutdownInv Drain N conn q first s) (i : Nat) : s.pcs i ≠ .panicked := by
  obtain ⟨_, _, h⟩ := h
  cases first with
  | none => simp [h.2.2 i]
  | some w =>
    obtain ⟨_, _, ho, hph⟩ := h
    by_cases hiw : i = w
    · subst hiw
      rcases hph with ⟨hpc, _⟩ | ⟨hpc, _⟩ | ⟨hpc, _⟩ <;> simp [hpc]
    · rcases ho i hiw with hpc | hpc <;> simp [hpc]

theorem step_other (Drain : Conn → Option GoError) (s : Sys) (i j : Nat) (hji : j ≠ i) :
    (s.step Drain i).pcs j = s.pcs j := by
  unfold Sys.step
  split
  · split <;> simp [setPC, hji]
  · simp [setPC, hji]
  · simp [setPC, hji]
  · split <;> simp [setPC, hji]
  · rfl
  · rfl

theorem step_rank (Drain : Conn → Option GoError) (N : Nat) (conn : Conn)
    (q : CancelFunc) (first : Option Nat) (s : Sys)
    (h : ShutdownInv Drain N conn q first s) (i : Nat) :
    min 3 ((s.pcs i).rank + 1) ≤ ((s.step Drain i).pcs i).rank := by
  have hnp := ShutdownInv_no_panic Drain N conn q first s h i
  obtain ⟨hnc, hq, h⟩ := h
  cases hpc : s.pcs i with
  | entry =>
    by_cases hs : s.c.shutdown = true
    · simp [Sys.step, hpc, hs, setPC, PC.rank]
    · simp [Sys.step, hpc, hs, setPC, PC.rank]
  | drain nc =>
    cases nc with
    | none =>
      exfalso
      cases first with
      | none => simp [h.2.2 i] at hpc
      | some w =>
        obtain ⟨_, _, ho, hph⟩ := h
        by_cases hiw : i = w
        · subst hiw
          rcases hph with ⟨hp, _⟩ | ⟨hp, _⟩ | ⟨hp, _⟩ <;> simp [hp] at hpc
        · rcases ho i hiw with hp | hp <;> simp [hp] at hpc
    | some nc => simp [Sys.step, hpc, setPC, PC.rank]
  | quit => simp [Sys.step, hpc, hq, setPC, PC.rank]
  | returned => simp [Sys.step, hpc, PC.rank]
  | panicked => exact absurd hpc hnp

theorem run_rank (Drain : Conn → Option GoError) (N : Nat) (conn : Conn)
    (q : CancelFunc) (sched : List Nat) (j : Nat) (hj : j < N) :
    ∀ (first : Option Nat) (s : Sys), ShutdownInv Drain N conn q first s →
      min 3 ((s.pcs j).rank + sched.count j) ≤ ((Sys.run Drain N s sched).pcs j).rank := by
  induction sched with
  | nil =>
    intro first s _
    simp [Sys.run]
  | cons i rest ih =>
    intro first s h
    by_cases hi : i < N
    · have h1 := ih _ _ (ShutdownInv_step Drain N conn q first s i hi h)
      simp only [Sys.run, hi, if_true]
      by_cases hji : j = i
      · subst hji
        have h2 := step_rank Drain N conn q first s h j
        simp only [List.count_cons_self]
        omega
      · rw [step_other Drain s i j hji] at h1
        rw [List.count_cons_of_ne hji]
        exact h1
    · have h1 := ih _ _ h
      have hji : j ≠ i := fun h => hi (h ▸ hj)
      simp only [Sys.run, hi, if_false]
      rw [List.count_cons_of_ne hji]
      exact h1

theorem rank_three (pc : PC) (h : 3 ≤ pc.rank) : pc = .returned := by
  cases pc <;> simp [PC.rank] at h ⊢

theorem firstCaller_append (N : Nat) (sched more : List Nat)
    (h : firstCaller N sched ≠ none) : firstCaller N (sched ++ more) ≠ none := by
  induction sched with
  | nil => simp [firstCaller] at h
  | cons i rest ih =>
    by_cases hi : i < N
    · simp [firstCaller, hi]
    · simp only [firstCaller, hi, if_false, List.cons_append] at h ⊢
      exact ih h

/-- C5: `Shutdown` is idempotent. On a controller with the bus connection `conn`
and the cancel function `q` stored and the flag down, for `N ≥ 1` calls and any
drain result:
(1) `N` calls one after another leave the flag up, make exactly the effects
drain, log, cancel, log in this order, and all `N` return;
(2) for `N` concurrent calls and every schedule of their atomic steps: before any
call has stepped the flag is down and nothing has happened; once a first call `w`
has stepped the flag is up and the effects are an initial part of the one shutdown
made by `w`; the flag stays up along every continuation of the schedule; a call
that finds the flag up returns and changes neither the controller nor the
effects; no call panics; when all calls have returned the effects are exactly one
drain followed by one cancel, made by the first caller; and all `N` calls have
returned once each has been scheduled three times. -/
theorem Shutdown_idempotent (Drain : Conn → Option GoError) (c : Controller) (conn : Conn)
    (q : CancelFunc) (N : Nat) (hN : 1 ≤ N) (hnc : c.nc = some conn) (hq : c.quit = some q)
    (hs : c.shutdown = false) :
    ((ShutdownTimes Drain c N).1.shutdown = true ∧
     (ShutdownTimes Drain c N).2.1 =
       [Effect.drain conn,
        Effect.errorf (str "Error disconnecting from NATS: %s") (Drain conn),
        Effect.cancel q, Effect.infof (str "Bye...")] ∧
     (ShutdownTimes Drain c N).2.2 = N) ∧
    ∀ sched : List Nat,
      (firstCaller N sched = none →
        (concurrentShutdowns Drain N c sched).c.shutdown = false ∧
        (concurrentShutdowns Drain N c sched).trace = []) ∧
      (∀ w, firstCaller N sched = some w →
        (concurrentShutdowns Drain N c sched).c.shutdown = true ∧
        ∃ k, (concurrentShutdowns Drain N c sched).trace
          = (fullShutdown Drain w conn q).take k) ∧
      (∀ more, (concurrentShutdowns Drain N c sched).c.shutdown = true →
        (concurrentShutdowns Drain N c (sched ++ more)).c.shutdown = true) ∧
      (∀ i, (concurrentShutdowns Drain N c sched).c.shutdown = true →
        (concurrentShutdowns Drain N c sched).pcs i = .entry →
        ((concurrentShutdowns Drain N c sched).step Drain i).c
          = (concurrentShutdowns Drain N c sched).c ∧
        ((concurrentShutdowns Drain N c sched).step Drain i).trace
          = (concurrentShutdowns Drain N c sched).trace ∧
        ((concurrentShutdowns Drain N c sched).step Drain i).pcs i = .returned) ∧
      (∀ i, (concurrentShutdowns Drain N c sched).pcs i ≠ .panicked) ∧
      ((∀ i, i < N → (concurrentShutdowns Drain N c sched).pcs i = .returned) →
        ∃ w, w < N ∧ firstCaller N sched = some w ∧
          (concurrentShutdowns Drain N c sched).trace = fullShutdown Drain w conn q ∧
          drainCount ((concurrentShutdowns Drain N c sched).trace.map Prod.snd) = 1 ∧
          cancelCount ((concurrentShutdowns Drain N c sched).trace.map Prod.snd) = 1) ∧
      ((∀ i, i < N → 3 ≤ sched.count i) →
        ∀ i, i < N → (concurrentShutdowns Drain N c sched).pcs i = .returned) := by
  constructor
  · obtain ⟨n, rfl⟩ : ∃ n, N = n + 1 := ⟨N - 1, by omega⟩
    rw [ShutdownTimes_first Drain n c conn q hnc hq hs]
    exact ⟨rfl, rfl, rfl⟩
  · have hstart := ShutdownInv_start Drain N c conn q hnc hq hs
    have hinv : ∀ sched : List Nat, ShutdownInv Drain N conn q (firstCaller N sched)
        (concurrentShutdowns Drain N c sched) := fun sched =>
      ShutdownInv_run Drain N conn q sched none _ hstart
    have hflag : ∀ sched : List Nat,
        (concurrentShutdowns Drain N c sched).c.shutdown = true →
        firstCaller N sched ≠ none := by
      intro sched hup hnone
      have h := hinv sched
      rw [hnone] at h
      rw [h.2.2.1] at hup
      cases hup
    intro sched
    have h := hinv sched
    refine ⟨?_, ?_, ?_, ?_, ?_, ?_, ?_⟩
    · intro hnone
      rw [hnone] at h
      exact ⟨h.2.2.1, h.2.2.2.1⟩
    · intro w hw
      rw [hw] at h
      obtain ⟨_, _, _, hup, _, hph⟩ := h
      refine ⟨hup, ?_⟩
      rcases hph with ⟨_, ht⟩ | ⟨_, ht⟩ | ⟨_, ht⟩
      · exact ⟨0, by rw [ht]; rfl⟩
      · exact ⟨2, ht⟩
      · exact ⟨4, by rw [ht]; rfl⟩
    · intro more hup
      have h2 := hinv (sched ++ more)
      have hne := firstCaller_append N sched more (hflag sched hup)
      cases hfc : firstCaller N (sched ++ more) with
      | none => exact absurd hfc hne
      | some w =>
        rw [hfc] at h2
        exact h2.2.2.2.1
    · intro i hup hpc
      simp [Sys.step, hpc, hup, setPC]
    · intro i
      exact ShutdownInv_no_panic Drain N conn q _ _ h i
    · intro hall
      cases hfc : firstCaller N sched with
      | none =>
        rw [hfc] at h
        have h0 := hall 0 (by omega)
        rw [h.2.2.2.2 0] at h0
        cases h0
      | some w =>
        rw [hfc] at h
        obtain ⟨_, _, hw, _, _, hph⟩ := h
        have hret := hall w hw
        rcases hph with ⟨hpc, _⟩ | ⟨hpc, _⟩ | ⟨_, ht⟩
        · rw [hpc] at hret
          cases hret
        · rw [hpc] at hret
          cases hret
        · refine ⟨w, hw, rfl, ht, ?_, ?_⟩
          · rw [ht]
            rfl
          · rw [ht]
            rfl
    · intro hcount i hi
      have hr := run_rank Drain N conn q sched i hi none _ hstart
      have h3 := hcount i hi
      apply rank_three
      have hr2 : min 3 (((Sys.start c).pcs i).rank + List.count i sched)
          ≤ ((concurrentShutdowns Drain N c sched).pcs i).rank := hr
      have h0 : ((Sys.start c).pcs i).rank = 0 := rfl
      omega

/-- Three calls on a running controller whose drain fails, one after another and
interleaved round robin starting with call 1: one shutdown, made by call 1, and
all three calls return. -/
theorem Shutdown_idempotent_witness :
    1 ≤ 3 ∧ (exController (storeWith none)).nc = some ⟨1⟩ ∧
    (exController (storeWith none)).quit = some ⟨1⟩ ∧
    (exController (storeWith none)).shutdown = false ∧
    (ShutdownTimes drainFails (exController (storeWith none)) 3).2.1 =
      [Effect.drain ⟨1⟩,
       Effect.errorf (str "Error disconnecting from NATS: %s")
         (some ⟨str "nats: connection closed"⟩),
       Effect.cancel ⟨1⟩, Effect.infof (str "Bye...")] ∧
    (concurrentShutdowns drainFails 3 (exController (storeWith none))
      [1, 0, 2, 1, 0, 2, 1, 0, 2]).trace = fullShutdown drainFails 1 ⟨1⟩ ⟨1⟩ ∧
    ∀ i, i < 3 → (concurrentShutdowns drainFails 3 (exController (storeWith none))
      [1, 0, 2, 1, 0, 2, 1, 0, 2]).pcs i = .returned := by
  have h := Shutdown_idempotent drainFails (exController (storeWith none)) ⟨1⟩ ⟨1⟩ 3
    (by decide) rfl rfl rfl
  have hs := h.2 [1, 0, 2, 1, 0, 2, 1, 0, 2]
  have hret := hs.2.2.2.2.2.2 (by decide)
  obtain ⟨w, _, hw, ht, _⟩ := hs.2.2.2.2.2.1 hret
  have hw1 : w = 1 := by
    have h1 : firstCaller 3 [1, 0, 2, 1, 0, 2, 1, 0, 2] = some 1 := rfl
    rw [h1] at hw
    exact (Option.some.inj hw).symm
  subst hw1
  exact ⟨by decide, rfl, rfl, rfl, h.1.2.1, ht, hret⟩

end LeafController
